import Mathlib

/-!
Verification development for the ProntoPDF generator (src/index.tsx).

The repository holds two variants of the same single-file application,
separated by a document marker inside src/index.tsx:
  * the sequential-with-throttle variant (lines 1-861): retry wrapper
    `callWithRetry`, sequential chapter loop with image generation;
  * the batched-parallel variant (lines 861-end): batches of 3 chapters
    launched concurrently via Promise.all.

The outbound AI calls, JSON.parse and the PDF library are external; they
are modelled as oracles (environment records of functions).  Everything
else is translated directly from the source.
-/

/-- A JavaScript error value as inspected by `callWithRetry`
(src/index.tsx line 77): optional `status`, `code` and `message` fields.
`message = some ""` models an empty-string message (falsy in JS). -/
structure JsError where
  status : Option Nat
  code : Option Nat
  message : Option String
deriving DecidableEq, Repr

/-- `pat` is a prefix of `s` (on character lists). -/
def hasPrefixChars : List Char → List Char → Bool
  | _, [] => true
  | [], _ :: _ => false
  | c :: cs, p :: ps => c == p && hasPrefixChars cs ps

/-- `pat` occurs as a contiguous substring of `s` (on character lists). -/
def hasSubstrChars (pat : List Char) : List Char → Bool
  | [] => hasPrefixChars [] pat
  | c :: cs => hasPrefixChars (c :: cs) pat || hasSubstrChars pat cs

/-- `s` contains `pat` as a substring. -/
def containsSub (s pat : String) : Bool :=
  hasSubstrChars pat.toList s.toList

/-- Lower-case a string character-wise (JS `toLowerCase` on the ASCII
content these strings carry). -/
def lowerStr (s : String) : String :=
  ⟨s.toList.map Char.toLower⟩

/-- The rate-limit regex `/quota|limit|429/i` of src/index.tsx line 77,
applied to a message string: case-insensitive containment of one of the
three alternatives. -/
def rateLimitPattern (m : String) : Bool :=
  containsSub (lowerStr m) "quota" || containsSub (lowerStr m) "limit" ||
    containsSub (lowerStr m) "429"

/-- `isRateLimit` classification from src/index.tsx line 77:
`error?.status === 429 || error?.code === 429 ||
 (error?.message && /quota|limit|429/i.test(error.message))`.
An absent or empty (falsy) message never matches. -/
def isRateLimit (e : JsError) : Bool :=
  e.status == some 429 || e.code == some 429 ||
    (match e.message with
     | some m => !(m == "") && rateLimitPattern m
     | none => false)

/-- Outcome of a `callWithRetry` run: a returned value, a propagated
(original) error, or the terminal `Falha na operação ...` failure thrown
after the loop (src/index.tsx line 90). -/
inductive RetryOutcome (α : Type) where
  | ok : α → RetryOutcome α
  | err : JsError → RetryOutcome α
  | exhausted : String → RetryOutcome α
deriving DecidableEq, Repr

/-- `r.throws` holds when the wrapped call, as seen by the caller of
`callWithRetry`, raised an exception (either a propagated error or the
terminal failure). -/
def RetryOutcome.throws {α : Type} : RetryOutcome α → Prop
  | .ok _ => False
  | .err _ => True
  | .exhausted _ => True

/-- Observable trace of one `callWithRetry` run: final outcome, the wait
durations passed to `setTimeout` in order, the progress messages emitted
(one before each wait), and how many times the wrapped operation ran. -/
structure RetryTrace (α : Type) where
  outcome : RetryOutcome α
  sleeps : List Nat
  progress : List String
  attempts : Nat
deriving DecidableEq, Repr

/-- The progress message of src/index.tsx line 81:
`Alta demanda (${operationName}). Aguardando ${waitTime/1000}s...`.
The division is exact for every wait the code produces (multiples of the
base delay 4000), so Nat division renders the same digits. -/
def retryProgressMsg (operationName : String) (waitTime : Nat) : String :=
  "Alta demanda (" ++ operationName ++ "). Aguardando " ++
    toString (waitTime / 1000) ++ "s..."

/-- The terminal failure message of src/index.tsx line 90. -/
def retryExhaustedMsg (operationName : String) : String :=
  "Falha na operação " ++ operationName ++ " após tentativas."

/-- Loop body of `callWithRetry` (src/index.tsx lines 73-90).
`fn j` is the result of the wrapped operation on (0-based) attempt `j`;
`remaining = retries - i` counts the loop iterations still allowed, so
the source guard `i < retries - 1` is `0 < remaining - 1`, i.e.
`0 < rem` under the pattern `remaining = rem + 1`. -/
def callWithRetryGo {α : Type} (operationName : String)
    (fn : Nat → Except JsError α) (baseDelay : Nat) :
    Nat → Nat → RetryTrace α
  | 0, _ => ⟨.exhausted (retryExhaustedMsg operationName), [], [], 0⟩
  | rem + 1, i =>
    match fn i with
    | .ok a => ⟨.ok a, [], [], 1⟩
    | .error e =>
      if isRateLimit e && 0 < rem then
        let waitTime := baseDelay * 2 ^ i
        let rest := callWithRetryGo operationName fn baseDelay rem (i + 1)
        ⟨rest.outcome, waitTime :: rest.sleeps,
          retryProgressMsg operationName waitTime :: rest.progress,
          1 + rest.attempts⟩
      else ⟨.err e, [], [], 1⟩

/-- `callWithRetry` of src/index.tsx lines 67-91 (defaults at the call
sites: `retries = 3`, `baseDelay = 4000`; the image call passes
`retries = 1`). -/
def callWithRetry {α : Type} (operationName : String)
    (fn : Nat → Except JsError α) (retries baseDelay : Nat) : RetryTrace α :=
  callWithRetryGo operationName fn baseDelay retries 0

/-- Result of an external call / parse as seen through a JS try-catch
that does not inspect the error value: success with a value, or thrown. -/
inductive CallResult (α : Type) where
  | ok : α → CallResult α
  | thrown : CallResult α
deriving DecidableEq, Repr

/-- A `GenerateContentResponse` as used by the pipeline: only its `text`
accessor is consumed.  `none` models an absent text, `some ""` an empty
(falsy) one. -/
structure GenResponse where
  text : Option String
deriving DecidableEq, Repr

/-- `inlineData` of an image-response part (src/index.tsx lines 195-197). -/
structure InlineData where
  mimeType : String
  data : String
deriving DecidableEq, Repr

/-- One part of `imageResult.candidates[0].content.parts`. -/
structure ImagePart where
  inlineData : Option InlineData
deriving DecidableEq, Repr

/-- An image response: `candidates?.[0]?.content?.parts`, possibly absent
(src/index.tsx line 193). -/
structure ImageResponse where
  parts : Option (List ImagePart)
deriving DecidableEq, Repr

/-- The part scan of src/index.tsx lines 194-199: first part carrying
`inlineData` becomes the data URL. -/
def firstInlineImage : List ImagePart → Option String
  | [] => none
  | p :: rest =>
    match p.inlineData with
    | some d => some ("data:" ++ d.mimeType ++ ";base64," ++ d.data)
    | none => firstInlineImage rest

/-- `imageBase64` extraction (src/index.tsx lines 193-200): absent parts
yield no image. -/
def extractImage (r : ImageResponse) : Option String :=
  match r.parts with
  | some ps => firstInlineImage ps
  | none => none

/-- Index-threading map: `mapIdx f i [t0, t1, ...] = [f i t0, f (i+1) t1, ...]`.
Used for the chapter loops, whose bodies depend on the chapter index. -/
def mapIdx {α : Type} (f : Nat → String → α) : Nat → List String → List α
  | _, [] => []
  | i, t :: ts => f i t :: mapIdx f (i + 1) ts

/-- Shared outline record (`OutlineData` of src/index.tsx lines 37-44 and
890-897). -/
structure OutlineData where
  title : String
  subtitle : String
  author : String
  summary : String
  colorTheme : String
  chapterTitles : List String
deriving DecidableEq, Repr

namespace Seq

/-- A chapter of the sequential variant (`ContentData.chapters` element,
src/index.tsx lines 30-34). -/
structure Chapter where
  title : String
  content : String
  image : Option String
deriving DecidableEq, Repr

/-- `ContentData` of the sequential variant (src/index.tsx lines 24-35). -/
structure ContentData where
  title : String
  subtitle : String
  author : String
  summary : String
  colorTheme : String
  chapters : List Chapter
deriving DecidableEq, Repr

/-- Result of the sequential `generateMaterial`: the assembled content, or
the fatal outline error thrown at src/index.tsx line 144. -/
inductive RunResult (α : Type) where
  | ok : α → RunResult α
  | fatal : String → RunResult α
deriving DecidableEq, Repr

/-- Environment (oracle) for one sequential run: attempt-indexed outcomes
of the outbound calls, plus the `JSON.parse(...)`/field projections.
`textAttempt i j` is attempt `j` of the text call for chapter `i`;
`parseChapter s` is `JSON.parse(s).content`, `.thrown` when the parse
throws. -/
structure Env where
  outlineAttempt : Nat → Except JsError GenResponse
  textAttempt : Nat → Nat → Except JsError GenResponse
  imageAttempt : Nat → Nat → Except JsError ImageResponse
  parseOutline : String → CallResult OutlineData
  parseChapter : String → CallResult String

/-- Error-path placeholder body (src/index.tsx line 213). -/
def errorBody : String := "Erro na geração deste capítulo. O conteúdo foi omitido."

/-- Empty-response body (src/index.tsx line 205). -/
def noContentBody : String := "Conteúdo indisponível."

/-- Fatal outline message (src/index.tsx line 144). -/
def outlineFatalMsg : String :=
  "Não foi possível conectar à IA. Verifique sua chave de API ou tente novamente."

/-- The text call for chapter `i` (src/index.tsx lines 167-179):
`callWithRetry` with name `Texto Cap ${i+1}` and the default
`retries = 3`, `baseDelay = 4000`. -/
def textTrace (env : Env) (i : Nat) : RetryTrace GenResponse :=
  callWithRetry ("Texto Cap " ++ toString (i + 1)) (env.textAttempt i) 3 4000

/-- The image call for chapter `i` (src/index.tsx lines 185-191):
`callWithRetry` with name `Imagem Cap ${i+1}` and `retries = 1`. -/
def imageTrace (env : Env) (i : Nat) : RetryTrace ImageResponse :=
  callWithRetry ("Imagem Cap " ++ toString (i + 1)) (env.imageAttempt i) 1 4000

/-- The inner image block of src/index.tsx lines 182-203: any throw is
caught and leaves `imageBase64` undefined; otherwise the parts are
scanned for the first inline image. -/
def chapterImage (env : Env) (i : Nat) : Option String :=
  match (imageTrace env i).outcome with
  | .ok r => extractImage r
  | .err _ => none
  | .exhausted _ => none

/-- One iteration of the chapter loop (src/index.tsx lines 151-215) for
chapter index `i` with title `title`: text call (with retry), image block,
then `textResult.text ? JSON.parse(textResult.text).content :
"Conteúdo indisponível."`; any uncaught throw (text call exhausted or
`JSON.parse` failure) lands in the catch of line 211, which pushes the
placeholder chapter with no image. -/
def genChapter (env : Env) (i : Nat) (title : String) : Chapter :=
  match (textTrace env i).outcome with
  | .ok textResult =>
    let image := chapterImage env i
    match textResult.text with
    | some t =>
      if t = "" then { title, content := noContentBody, image }
      else
        match env.parseChapter t with
        | .ok c => { title, content := c, image }
        | .thrown => { title, content := errorBody, image := none }
    | none => { title, content := noContentBody, image }
  | .err _ => { title, content := errorBody, image := none }
  | .exhausted _ => { title, content := errorBody, image := none }

/-- The full chapter loop of src/index.tsx lines 148-215. -/
def generateChapters (env : Env) (titles : List String) : List Chapter :=
  mapIdx (genChapter env) 0 titles

/-- STEP 1 of `generateMaterial` (src/index.tsx lines 115-145): outline
call through `callWithRetry` (name `Gerar Estrutura`, defaults), empty
text check, `JSON.parse`; every failure is caught and rethrown as the
fatal message of line 144. -/
def outlineStep (env : Env) : RunResult OutlineData :=
  match (callWithRetry "Gerar Estrutura" env.outlineAttempt 3 4000).outcome with
  | .ok resp =>
    match resp.text with
    | some s =>
      if s = "" then .fatal outlineFatalMsg
      else
        match env.parseOutline s with
        | .ok o => .ok o
        | .thrown => .fatal outlineFatalMsg
    | none => .fatal outlineFatalMsg
  | .err _ => .fatal outlineFatalMsg
  | .exhausted _ => .fatal outlineFatalMsg

/-- `generateMaterial` of the sequential variant (src/index.tsx lines
62-219): outline step, chapter loop, final assembly `{...outline, chapters}`. -/
def generateMaterial (env : Env) : RunResult ContentData :=
  match outlineStep env with
  | .fatal m => .fatal m
  | .ok outline =>
    .ok { title := outline.title, subtitle := outline.subtitle,
          author := outline.author, summary := outline.summary,
          colorTheme := outline.colorTheme,
          chapters := generateChapters env outline.chapterTitles }

/-- A chapter body the sequential loop can produce: the parsed generated
text, or one of the two fixed sentinel strings. -/
def BodyOk (env : Env) (c : Chapter) : Prop :=
  (∃ s, env.parseChapter s = .ok c.content) ∨
    c.content = noContentBody ∨ c.content = errorBody

end Seq

namespace Batched

/-- A chapter of the batched variant (src/index.tsx lines 884-887). -/
structure Chapter where
  title : String
  content : String
deriving DecidableEq, Repr

/-- `ContentData` of the batched variant (src/index.tsx lines 878-888). -/
structure ContentData where
  title : String
  subtitle : String
  author : String
  summary : String
  colorTheme : String
  chapters : List Chapter
deriving DecidableEq, Repr

/-- Environment for one batched run.  The outline call is a direct
`generateContent` (no retry), `textCall i` the text call for global
chapter index `i` (the per-title tasks of line 978, keyed by their
position in the title list), `parseChapter s` is `JSON.parse(s).content`. -/
structure Env where
  outlineCall : CallResult GenResponse
  parseOutline : String → CallResult OutlineData
  textCall : Nat → CallResult GenResponse
  parseChapter : String → CallResult String

/-- Error-path placeholder body (src/index.tsx line 1011). -/
def errorBody : String :=
  "Ocorreu um erro ao gerar este capítulo. Tente regenerar o material."

/-- Empty-response body (src/index.tsx line 1007). -/
def noContentBody : String := "Conteúdo não gerado."

/-- `batchSize` of src/index.tsx line 967. -/
def batchSize : Nat := 3

/-- One batch task (src/index.tsx lines 978-1013): direct call inside a
try-catch; empty or absent text yields `Conteúdo não gerado.`, a thrown
call or parse yields the error placeholder. -/
def genChapter (env : Env) (i : Nat) (title : String) : Chapter :=
  match env.textCall i with
  | .ok result =>
    match result.text with
    | some t =>
      if t = "" then { title, content := noContentBody }
      else
        match env.parseChapter t with
        | .ok c => { title, content := c }
        | .thrown => { title, content := errorBody }
    | none => { title, content := noContentBody }
  | .thrown => { title, content := errorBody }

/-- The batch loop of src/index.tsx lines 971-1017, recursing on the
unprocessed suffix: `rest = titles.slice(i)`, each step takes
`batch = rest.take batchSize` (the `slice(i, i + batchSize)` of line 972),
maps the batch tasks (Promise.all keeps input order) and appends. -/
def chaptersGo (env : Env) (i : Nat) (rest : List String) : List Chapter :=
  match rest with
  | [] => []
  | t :: ts =>
    mapIdx (genChapter env) i ((t :: ts).take batchSize) ++
      chaptersGo env (i + batchSize) ((t :: ts).drop batchSize)
termination_by rest.length
decreasing_by simp [batchSize]; omega

/-- The assembled chapter list of the batched variant. -/
def generateChapters (env : Env) (titles : List String) : List Chapter :=
  chaptersGo env 0 titles

/-- STEP 1 of the batched `generateMaterial` (src/index.tsx lines
939-963): direct outline call; a missing text throws
`Falha ao gerar estrutura.`, a parse failure also propagates — all throws
leave the function, modelled as `.thrown`. -/
def outlineStep (env : Env) : CallResult OutlineData :=
  match env.outlineCall with
  | .ok resp =>
    match resp.text with
    | some s => if s = "" then .thrown else env.parseOutline s
    | none => .thrown
  | .thrown => .thrown

/-- `generateMaterial` of the batched variant (src/index.tsx lines
915-1029). -/
def generateMaterial (env : Env) : CallResult ContentData :=
  match outlineStep env with
  | .thrown => .thrown
  | .ok outline =>
    .ok { title := outline.title, subtitle := outline.subtitle,
          author := outline.author, summary := outline.summary,
          colorTheme := outline.colorTheme,
          chapters := generateChapters env outline.chapterTitles }

/-- A chapter body the batched loop can produce. -/
def BodyOk (env : Env) (c : Chapter) : Prop :=
  (∃ s, env.parseChapter s = .ok c.content) ∨
    c.content = noContentBody ∨ c.content = errorBody

end Batched

/-- One RGB channel as produced by `parseInt(..., 16)`: `none` is NaN. -/
structure RGB where
  r : Option Nat
  g : Option Nat
  b : Option Nat
deriving DecidableEq, Repr

/-- Value of one hexadecimal digit, as accepted by `parseInt(s, 16)`. -/
def hexDigitVal (c : Char) : Option Nat :=
  if '0' ≤ c ∧ c ≤ '9' then some (c.toNat - '0'.toNat)
  else if 'a' ≤ c ∧ c ≤ 'f' then some (c.toNat - 'a'.toNat + 10)
  else if 'A' ≤ c ∧ c ≤ 'F' then some (c.toNat - 'A'.toNat + 10)
  else none

/-- Accumulate the maximal leading run of hex digits. -/
def parseHexAux : List Char → Nat → Nat
  | [], acc => acc
  | c :: cs, acc =>
    match hexDigitVal c with
    | some v => parseHexAux cs (acc * 16 + v)
    | none => acc

/-- The JavaScript builtin `parseInt(s, 16)` on the strings this program
feeds it (slices of a color string): leading whitespace is skipped, then
the maximal run of hex digits is read; no digit at all gives NaN
(`none`).  Sign and `0x` prefixes do not arise from these slices and are
not modelled. -/
def parseIntHex (s : String) : Option Nat :=
  match s.toList.dropWhile (fun c => c.isWhitespace) with
  | [] => none
  | c :: rest =>
    match hexDigitVal c with
    | some v => some (parseHexAux rest v)
    | none => none

/-- JavaScript `s.slice(a, b)`: characters `[a, b)` (for `0 ≤ a ≤ b`). -/
def jsSlice (s : String) (a b : Nat) : String :=
  ⟨(s.toList.drop a).take (b - a)⟩

/-- JS `hex.startsWith('#')`: the first character is `#`. -/
def startsWithHash (s : String) : Bool :=
  match s.toList with
  | c :: _ => c == '#'
  | [] => false

/-- `hexToRgb` of src/index.tsx lines 229-236 and 1046-1053: a falsy hex
or one not starting with `#` yields the fallback `(30, 41, 59)`; any
other string is cut positionally and each slice goes through
`parseInt(..., 16)`. -/
def hexToRgb (hex : String) : RGB :=
  if hex = "" || !(startsWithHash hex) then ⟨some 30, some 41, some 59⟩
  else ⟨parseIntHex (jsSlice hex 1 3), parseIntHex (jsSlice hex 3 5),
        parseIntHex (jsSlice hex 5 7)⟩

/-- The character class `[a-z0-9]` with flag `i`: ASCII letters and digits. -/
def isAsciiAlnum (c : Char) : Bool :=
  ('a' ≤ c ∧ c ≤ 'z') ∨ ('A' ≤ c ∧ c ≤ 'Z') ∨ ('0' ≤ c ∧ c ≤ '9')

/-- The per-character action of `.replace(/[^a-z0-9]/gi, '_')`. -/
def replaceNonAlnum (c : Char) : Char :=
  if isAsciiAlnum c then c else '_'

/-- The saved file name of `createPDF` (src/index.tsx lines 313 and 1246):
`${data.title.replace(/[^a-z0-9]/gi, '_').toLowerCase()}.pdf`
(`toLowerCase` maps each character, which on this post-replace ASCII
string is `Char.toLower`). -/
def pdfFileName (title : String) : String :=
  ⟨(title.toList.map replaceNonAlnum).map Char.toLower⟩ ++ ".pdf"

/-- Modelled from the spec: `Output filename is derived from the title
with non-alphanumeric characters stripped` — the title with every
non-alphanumeric character removed, plus the `.pdf` extension.  Stated
only to be compared with `pdfFileName`, the definition from the source. -/
def specFileName (title : String) : String :=
  ⟨title.toList.filter isAsciiAlnum⟩ ++ ".pdf"

/-- `Promise.all` over already-settled concurrent tasks: `ord` lists the
original indices of the tasks in the order their requests settle; each
result is stored at its original index in a result array created full of
holes.  `tasks` are the (deterministic) task results. -/
def settleAssemble {α : Type} (tasks : List α) (ord : List Nat) :
    List (Option α) :=
  ord.foldl
    (fun acc j =>
      match tasks[j]? with
      | some c => acc.set j (some c)
      | none => acc)
    (List.replicate tasks.length none)

/-! Concrete inputs used by witness theorems. -/

/-- A concrete outline with two chapter titles. -/
def wOutlineC1 : OutlineData :=
  ⟨"Titulo", "Sub", "Autor", "Resumo", "#1e293b", ["Intro", "Fim"]⟩

/-- A sequential-run environment in which every call succeeds. -/
def wEnvC1S : Seq.Env :=
  { outlineAttempt := fun _ => .ok ⟨some "saida"⟩
  , textAttempt := fun _ _ => .ok ⟨some "texto"⟩
  , imageAttempt := fun _ _ => .ok ⟨some [⟨some ⟨"image/png", "AA"⟩⟩]⟩
  , parseOutline := fun _ => .ok wOutlineC1
  , parseChapter := fun _ => .ok "corpo" }

/-- A batched-run environment in which every call succeeds. -/
def wEnvC1B : Batched.Env :=
  { outlineCall := .ok ⟨some "saida"⟩
  , parseOutline := fun _ => .ok wOutlineC1
  , textCall := fun _ => .ok ⟨some "texto"⟩
  , parseChapter := fun _ => .ok "corpo" }

/-- A sequential-run environment whose chapter-text calls always fail with
a non-retryable error. -/
def wEnvC5S : Seq.Env :=
  { outlineAttempt := fun _ => .ok ⟨some "saida"⟩
  , textAttempt := fun _ _ => .error ⟨some 500, none, some "boom"⟩
  , imageAttempt := fun _ _ => .error ⟨some 500, none, some "boom"⟩
  , parseOutline := fun _ => .ok wOutlineC1
  , parseChapter := fun _ => .ok "corpo" }

/-- A batched-run environment whose chapter-text calls always throw. -/
def wEnvC5B : Batched.Env :=
  { outlineCall := .ok ⟨some "saida"⟩
  , parseOutline := fun _ => .ok wOutlineC1
  , textCall := fun _ => .thrown
  , parseChapter := fun _ => .ok "corpo" }

/-- A sequential-run environment whose text calls succeed but whose image
calls always fail. -/
def wEnvC7 : Seq.Env :=
  { outlineAttempt := fun _ => .ok ⟨some "saida"⟩
  , textAttempt := fun _ _ => .ok ⟨some "texto"⟩
  , imageAttempt := fun _ _ => .error ⟨some 500, none, some "img down"⟩
  , parseOutline := fun _ => .ok wOutlineC1
  , parseChapter := fun _ => .ok "corpo" }

/-- A sequential-run environment whose text calls return an empty payload
and a batched counterpart whose text calls return no payload. -/
def wEnvC10S : Seq.Env :=
  { outlineAttempt := fun _ => .ok ⟨some "saida"⟩
  , textAttempt := fun _ _ => .ok ⟨some ""⟩
  , imageAttempt := fun _ _ => .ok ⟨none⟩
  , parseOutline := fun _ => .ok wOutlineC1
  , parseChapter := fun _ => .ok "corpo" }

/-- Batched counterpart for the empty-payload witness. -/
def wEnvC10B : Batched.Env :=
  { outlineCall := .ok ⟨some "saida"⟩
  , parseOutline := fun _ => .ok wOutlineC1
  , textCall := fun _ => .ok ⟨none⟩
  , parseChapter := fun _ => .ok "corpo" }

/-- A batched-run environment used by the ordering witness. -/
def wEnvC6 : Batched.Env :=
  { outlineCall := .ok ⟨some "saida"⟩
  , parseOutline := fun _ => .ok wOutlineC1
  , textCall := fun i => .ok ⟨some (toString i)⟩
  , parseChapter := fun s => .ok ("corpo " ++ s) }

/-! Helper lemmas about the retry loop. -/

/-- If the first `k` attempts (counting from attempt `i`) fail with
rate-limit errors and attempt `i + k` succeeds, the loop returns the
success after exactly the exponential waits for attempts `i .. i+k-1`. -/
theorem callWithRetryGo_ok {α : Type} (operationName : String)
    (fn : Nat → Except JsError α) (baseDelay : Nat) (a : α) (e : Nat → JsError) :
    ∀ (k rem i : Nat), k < rem →
      (∀ j, j < k → fn (i + j) = .error (e (i + j)) ∧ isRateLimit (e (i + j)) = true) →
      fn (i + k) = .ok a →
      callWithRetryGo operationName fn baseDelay rem i =
        ⟨.ok a, (List.range' i k).map (fun m => baseDelay * 2 ^ m),
          (List.range' i k).map
            (fun m => retryProgressMsg operationName (baseDelay * 2 ^ m)),
          k + 1⟩ := by
  intro k
  induction k with
  | zero =>
    intro rem i hk hfail hok
    match rem, hk with
    | rem + 1, _ =>
      rw [Nat.add_zero] at hok
      simp [callWithRetryGo, hok, List.range']
  | succ k ih =>
    intro rem i hk hfail hok
    match rem, hk with
    | rem + 1, _ =>
      have h0 := hfail 0 (Nat.succ_pos k)
      rw [Nat.add_zero] at h0
      have hrem : 0 < rem := by omega
      have hfail' : ∀ j, j < k →
          fn (i + 1 + j) = .error (e (i + 1 + j)) ∧
            isRateLimit (e (i + 1 + j)) = true := by
        intro j hj
        have := hfail (j + 1) (by omega)
        rwa [show i + (j + 1) = i + 1 + j by omega] at this
      have hok' : fn (i + 1 + k) = .ok a := by
        rwa [show i + (k + 1) = i + 1 + k by omega] at hok
      simp only [callWithRetryGo, h0.1, h0.2, decide_eq_true hrem, Bool.and_self,
        if_true, ih rem (i + 1) (by omega) hfail' hok']
      simp [List.range', Nat.add_comm]

/-- If every allowed attempt (from `i`, `rem` of them, `rem ≥ 1`) fails
with a rate-limit error, the loop rethrows the error of the last attempt
itself: the dedicated terminal failure is never reached. -/
theorem callWithRetryGo_allFail {α : Type} (operationName : String)
    (fn : Nat → Except JsError α) (baseDelay : Nat) (e : Nat → JsError) :
    ∀ (rem i : Nat), 0 < rem →
      (∀ j, j < rem → fn (i + j) = .error (e (i + j)) ∧ isRateLimit (e (i + j)) = true) →
      (callWithRetryGo operationName fn baseDelay rem i).outcome = .err (e (i + rem - 1)) := by
  intro rem
  induction rem with
  | zero => intro i h; omega
  | succ r ih =>
    intro i _ hfail
    have h0 := hfail 0 (Nat.succ_pos r)
    rw [Nat.add_zero] at h0
    cases r with
    | zero =>
      simp [callWithRetryGo, h0.1]
    | succ r2 =>
      have hfail' : ∀ j, j < r2 + 1 →
          fn (i + 1 + j) = .error (e (i + 1 + j)) ∧
            isRateLimit (e (i + 1 + j)) = true := by
        intro j hj
        have := hfail (j + 1) (by omega)
        rwa [show i + (j + 1) = i + 1 + j by omega] at this
      have hrec := ih (i + 1) (Nat.succ_pos r2) hfail'
      simp only [callWithRetryGo, h0.1, h0.2, decide_eq_true (Nat.succ_pos r2),
        Bool.and_self, if_true]
      rw [show i + 1 + (r2 + 1) - 1 = i + (r2 + 1 + 1) - 1 by omega] at hrec
      exact hrec

/-- The total backoff of `k` exponential waits. -/
theorem backoff_sum (baseDelay : Nat) :
    ∀ k : Nat, (((List.range k).map (fun j => baseDelay * 2 ^ j)).sum)
      = baseDelay * (2 ^ k - 1) := by
  intro k
  induction k with
  | zero => simp
  | succ k ih =>
    have hpos : 0 < 2 ^ k := Nat.pos_pow_of_pos k (by omega)
    rw [List.range_succ, List.map_append, List.sum_append, ih]
    simp only [List.map_cons, List.map_nil, List.sum_cons, List.sum_nil]
    have : 2 ^ (k + 1) = 2 ^ k * 2 := by rw [Nat.pow_succ]
    rw [this, show 2 ^ k * 2 - 1 = (2 ^ k - 1) + 2 ^ k by omega, Nat.mul_add]
    omega

/-! Helper lemmas about the chapter loops. -/

theorem mapIdx_length {α : Type} (f : Nat → String → α) :
    ∀ (l : List String) (i : Nat), (mapIdx f i l).length = l.length := by
  intro l
  induction l with
  | nil => intro i; rfl
  | cons t ts ih => intro i; simp [mapIdx, ih]

theorem mapIdx_getElem? {α : Type} (f : Nat → String → α) :
    ∀ (l : List String) (i k : Nat),
      (mapIdx f i l)[k]? = (l[k]?).map (fun t => f (i + k) t) := by
  intro l
  induction l with
  | nil => intro i k; simp [mapIdx]
  | cons t ts ih =>
    intro i k
    cases k with
    | zero => simp [mapIdx]
    | succ k =>
      simp only [mapIdx, List.getElem?_cons_succ]
      rw [ih (i + 1) k, show i + 1 + k = i + (k + 1) by omega]

theorem mapIdx_forall {α : Type} (f : Nat → String → α) (P : α → Prop)
    (hP : ∀ j t, P (f j t)) :
    ∀ (l : List String) (i : Nat) (c : α), c ∈ mapIdx f i l → P c := by
  intro l
  induction l with
  | nil => intro i c hc; simp [mapIdx] at hc
  | cons t ts ih =>
    intro i c hc
    simp only [mapIdx, List.mem_cons] at hc
    rcases hc with h | h
    · rw [h]; exact hP i t
    · exact ih (i + 1) c h


theorem seqGenChapter_title (env : Seq.Env) (i : Nat) (t : String) :
    (Seq.genChapter env i t).title = t := by
  unfold Seq.genChapter
  cases (Seq.textTrace env i).outcome with
  | ok r =>
    obtain ⟨text⟩ := r
    cases text with
    | some s =>
      by_cases hs : s = ""
      · simp [hs]
      · simp only [hs, reduceIte]
        cases env.parseChapter s <;> simp
    | none => simp
  | err e => rfl
  | exhausted m => rfl

theorem seqGenChapter_bodyOk (env : Seq.Env) (i : Nat) (t : String) :
    Seq.BodyOk env (Seq.genChapter env i t) := by
  unfold Seq.genChapter
  cases (Seq.textTrace env i).outcome with
  | ok r =>
    obtain ⟨text⟩ := r
    cases text with
    | some s =>
      by_cases hs : s = ""
      · simp only [hs, reduceIte]
        right; left; rfl
      · simp only [hs, reduceIte]
        cases hp : env.parseChapter s with
        | ok c =>
          simp only []
          left; exact ⟨s, by rw [hp]⟩
        | thrown =>
          simp only []
          right; right; rfl
    | none => right; left; rfl
  | err e => right; right; rfl
  | exhausted m => right; right; rfl

theorem batGenChapter_title (env : Batched.Env) (i : Nat) (t : String) :
    (Batched.genChapter env i t).title = t := by
  unfold Batched.genChapter
  cases env.textCall i with
  | ok r =>
    obtain ⟨text⟩ := r
    cases text with
    | some s =>
      by_cases hs : s = ""
      · simp [hs]
      · simp only [hs, reduceIte]
        cases env.parseChapter s <;> simp
    | none => simp
  | thrown => rfl

theorem batGenChapter_bodyOk (env : Batched.Env) (i : Nat) (t : String) :
    Batched.BodyOk env (Batched.genChapter env i t) := by
  unfold Batched.genChapter
  cases env.textCall i with
  | ok r =>
    obtain ⟨text⟩ := r
    cases text with
    | some s =>
      by_cases hs : s = ""
      · simp only [hs, reduceIte]
        right; left; rfl
      · simp only [hs, reduceIte]
        cases hp : env.parseChapter s with
        | ok c =>
          simp only []
          left; exact ⟨s, by rw [hp]⟩
        | thrown =>
          simp only []
          right; right; rfl
    | none => right; left; rfl
  | thrown => right; right; rfl

theorem Batched.chaptersGo_getElem? (env : Batched.Env) :
    ∀ (n : Nat) (rest : List String) (i k : Nat), rest.length ≤ n →
      (Batched.chaptersGo env i rest)[k]? =
        (rest[k]?).map (fun t => Batched.genChapter env (i + k) t) := by
  intro n
  induction n with
  | zero =>
    intro rest i k h
    match rest with
    | [] => simp [Batched.chaptersGo]
  | succ n ih =>
    intro rest i k h
    match rest with
    | [] => simp [Batched.chaptersGo]
    | t :: ts =>
      rw [Batched.chaptersGo]
      simp only [Batched.batchSize, List.length_cons] at h ⊢
      have hlen : (mapIdx (Batched.genChapter env) i ((t :: ts).take 3)).length
          = min 3 (ts.length + 1) := by
        rw [mapIdx_length, List.length_take, List.length_cons]
      by_cases hk : k < min 3 (ts.length + 1)
      · rw [List.getElem?_append_left (by rw [hlen]; exact hk)]
        rw [mapIdx_getElem?]
        rw [List.getElem?_take_of_lt (by omega)]
      · rw [List.getElem?_append_right (by rw [hlen]; omega), hlen]
        by_cases hlong : ts.length + 1 ≤ 3
        · have hdrop : (t :: ts).drop 3 = [] :=
            List.drop_eq_nil_of_le (by simp; omega)
          rw [hdrop]
          simp only [Batched.chaptersGo]
          rw [List.getElem?_eq_none (show (t :: ts).length ≤ k by simp; omega)]
          simp
        · have hmin : min 3 (ts.length + 1) = 3 := by omega
          rw [hmin] at hk ⊢
          rw [ih ((t :: ts).drop 3) (i + 3) (k - 3) (by simp; omega)]
          rw [List.getElem?_drop]
          rw [show 3 + (k - 3) = k by omega, show i + 3 + (k - 3) = i + k by omega]

theorem Batched.chaptersGo_length (env : Batched.Env) :
    ∀ (n : Nat) (rest : List String) (i : Nat), rest.length ≤ n →
      (Batched.chaptersGo env i rest).length = rest.length := by
  intro n
  induction n with
  | zero =>
    intro rest i h
    match rest with
    | [] => simp [Batched.chaptersGo]
  | succ n ih =>
    intro rest i h
    match rest with
    | [] => simp [Batched.chaptersGo]
    | t :: ts =>
      rw [Batched.chaptersGo]
      simp only [Batched.batchSize, List.length_cons] at h ⊢
      rw [List.length_append, mapIdx_length, List.length_take,
        ih ((t :: ts).drop 3) (i + 3) (by simp; omega), List.length_drop]
      simp only [List.length_cons]
      omega

theorem batChapters_getElem? (env : Batched.Env)
    (titles : List String) (k : Nat) :
    (Batched.generateChapters env titles)[k]? =
      (titles[k]?).map (fun t => Batched.genChapter env k t) := by
  unfold Batched.generateChapters
  rw [Batched.chaptersGo_getElem? env titles.length titles 0 k (Nat.le_refl _)]
  simp

theorem batChapters_length (env : Batched.Env)
    (titles : List String) :
    (Batched.generateChapters env titles).length = titles.length := by
  unfold Batched.generateChapters
  exact Batched.chaptersGo_length env titles.length titles 0 (Nat.le_refl _)

theorem batChapters_titles (env : Batched.Env)
    (titles : List String) :
    (Batched.generateChapters env titles).map Batched.Chapter.title = titles := by
  apply List.ext_getElem?
  intro k
  rw [List.getElem?_map, batChapters_getElem?]
  cases titles[k]? with
  | none => rfl
  | some t => simp [batGenChapter_title]

theorem batChapters_bodyOk (env : Batched.Env)
    (titles : List String) :
    ∀ c ∈ Batched.generateChapters env titles, Batched.BodyOk env c := by
  intro c hc
  obtain ⟨k, hk⟩ := List.mem_iff_getElem?.1 hc
  rw [batChapters_getElem?] at hk
  cases ht : titles[k]? with
  | none => rw [ht] at hk; simp at hk
  | some t =>
    rw [ht] at hk
    simp at hk
    cases hk
    exact batGenChapter_bodyOk env k t

theorem seqChapters_getElem? (env : Seq.Env)
    (titles : List String) (k : Nat) :
    (Seq.generateChapters env titles)[k]? =
      (titles[k]?).map (fun t => Seq.genChapter env k t) := by
  unfold Seq.generateChapters
  rw [mapIdx_getElem?]
  simp

theorem seqChapters_length (env : Seq.Env) (titles : List String) :
    (Seq.generateChapters env titles).length = titles.length := by
  unfold Seq.generateChapters
  exact mapIdx_length _ titles 0

theorem seqChapters_titles (env : Seq.Env) (titles : List String) :
    (Seq.generateChapters env titles).map Seq.Chapter.title = titles := by
  apply List.ext_getElem?
  intro k
  rw [List.getElem?_map, seqChapters_getElem?]
  cases titles[k]? with
  | none => rfl
  | some t => simp [seqGenChapter_title]

theorem seqChapters_bodyOk (env : Seq.Env) (titles : List String) :
    ∀ c ∈ Seq.generateChapters env titles, Seq.BodyOk env c := by
  intro c hc
  exact mapIdx_forall (Seq.genChapter env) (Seq.BodyOk env)
    (seqGenChapter_bodyOk env) titles 0 c hc

/-! Helper lemmas about the Promise.all settle model. -/

theorem settleFold_length {α : Type} (tasks : List α) :
    ∀ (ord : List Nat) (acc : List (Option α)),
      (ord.foldl
        (fun acc j =>
          match tasks[j]? with
          | some c => acc.set j (some c)
          | none => acc) acc).length = acc.length := by
  intro ord
  induction ord with
  | nil => intro acc; rfl
  | cons j rest ih =>
    intro acc
    rw [List.foldl_cons, ih]
    cases tasks[j]? <;> simp

theorem settleFold_getElem? {α : Type} (tasks : List α) :
    ∀ (ord : List Nat) (acc : List (Option α)), acc.length = tasks.length →
      ∀ k, (ord.foldl
          (fun acc j =>
            match tasks[j]? with
            | some c => acc.set j (some c)
            | none => acc) acc)[k]? =
        if k ∈ ord then (tasks[k]?).map some else acc[k]? := by
  intro ord
  induction ord with
  | nil => intro acc hlen k; simp
  | cons j rest ih =>
    intro acc hlen k
    rw [List.foldl_cons]
    have hstep : (match tasks[j]? with
        | some c => acc.set j (some c)
        | none => acc).length = tasks.length := by
      cases tasks[j]? <;> simp [hlen]
    rw [ih _ hstep k]
    by_cases hmem : k ∈ rest
    · simp [hmem, List.mem_cons]
    · by_cases hkj : k = j
      · subst hkj
        rw [if_neg hmem, if_pos (List.mem_cons_self k rest)]
        cases hj : tasks[k]? with
        | some c =>
          have hklt : k < acc.length := by
            rw [hlen]
            obtain ⟨hh, _⟩ := List.getElem?_eq_some_iff.1 hj
            exact hh
          simp [List.getElem?_set_self hklt]
        | none =>
          have hge : acc.length ≤ k := by
            rw [hlen]
            exact List.getElem?_eq_none_iff.1 hj
          simp [List.getElem?_eq_none hge]
      · simp only [List.mem_cons, hkj, false_or]
        rw [if_neg hmem, if_neg hmem]
        cases tasks[j]? with
        | some c => exact List.getElem?_set_ne (fun h => hkj h.symm)
        | none => rfl

/-- Promise.all semantics: whatever order the concurrent requests settle
in (`ord` any permutation of the task indices), the assembled array holds
every task result at its original index. -/
theorem settleAssemble_perm {α : Type} (tasks : List α) (ord : List Nat)
    (h : ord.Perm (List.range tasks.length)) :
    settleAssemble tasks ord = tasks.map some := by
  apply List.ext_getElem?
  intro k
  unfold settleAssemble
  rw [settleFold_getElem? tasks ord _ (by simp) k]
  have hmem : (k ∈ ord) ↔ k < tasks.length := by
    rw [h.mem_iff, List.mem_range]
  by_cases hk : k < tasks.length
  · rw [if_pos (hmem.2 hk), List.getElem?_map]
  · rw [if_neg (fun hmm => hk (hmem.1 hmm))]
    rw [List.getElem?_eq_none (by simp; omega), List.getElem?_eq_none (by simp; omega)]

/-! Path lemmas for individual chapter outcomes. -/

theorem Seq.genChapter_throws (env : Seq.Env) (i : Nat) (t : String)
    (h : (Seq.textTrace env i).outcome.throws) :
    Seq.genChapter env i t = ⟨t, Seq.errorBody, none⟩ := by
  unfold Seq.genChapter
  revert h
  cases (Seq.textTrace env i).outcome with
  | ok r => intro h; exact h.elim
  | err e => intro h; rfl
  | exhausted m => intro h; rfl

theorem Batched.genChapter_thrown (env : Batched.Env) (i : Nat) (t : String)
    (h : env.textCall i = .thrown) :
    Batched.genChapter env i t = ⟨t, Batched.errorBody⟩ := by
  unfold Batched.genChapter
  rw [h]

theorem seqGenChapter_noText (env : Seq.Env) (i : Nat) (t : String)
    (h : (Seq.textTrace env i).outcome = .ok ⟨some ""⟩ ∨
      (Seq.textTrace env i).outcome = .ok ⟨none⟩) :
    (Seq.genChapter env i t).content = Seq.noContentBody := by
  unfold Seq.genChapter
  rcases h with h | h <;> (rw [h]; try simp)

theorem batGenChapter_noText (env : Batched.Env) (i : Nat) (t : String)
    (h : env.textCall i = .ok ⟨some ""⟩ ∨ env.textCall i = .ok ⟨none⟩) :
    (Batched.genChapter env i t).content = Batched.noContentBody := by
  unfold Batched.genChapter
  rcases h with h | h <;> (rw [h]; try simp)

theorem Seq.genChapter_ok (env : Seq.Env) (i : Nat) (t s c : String)
    (htext : (Seq.textTrace env i).outcome = .ok ⟨some s⟩)
    (hs : s ≠ "") (hparse : env.parseChapter s = .ok c) :
    Seq.genChapter env i t = ⟨t, c, Seq.chapterImage env i⟩ := by
  unfold Seq.genChapter
  rw [htext]
  simp [hs, hparse]

theorem Seq.chapterImage_none (env : Seq.Env) (i : Nat)
    (h : (Seq.imageTrace env i).outcome.throws ∨
      ∃ r, (Seq.imageTrace env i).outcome = .ok r ∧ extractImage r = none) :
    Seq.chapterImage env i = none := by
  unfold Seq.chapterImage
  rcases h with h | ⟨r, hr, hex⟩
  · revert h
    cases (Seq.imageTrace env i).outcome with
    | ok r => intro h; exact h.elim
    | err e => intro h; rfl
    | exhausted m => intro h; rfl
  · rw [hr]
    exact hex

theorem seqChapters_title_getElem? (env : Seq.Env)
    (titles : List String) (k : Nat) :
    ((Seq.generateChapters env titles)[k]?).map Seq.Chapter.title = titles[k]? := by
  rw [seqChapters_getElem?]
  cases titles[k]? with
  | none => rfl
  | some t => simp [seqGenChapter_title]

theorem batChapters_title_getElem? (env : Batched.Env)
    (titles : List String) (k : Nat) :
    ((Batched.generateChapters env titles)[k]?).map Batched.Chapter.title = titles[k]? := by
  rw [batChapters_getElem?]
  cases titles[k]? with
  | none => rfl
  | some t => simp [batGenChapter_title]

/-! Claim theorems. -/

/-- C1: for every generation run, in both variants, if the outline step
succeeds with chapter-title list `T` then the returned Content has
exactly `|T|` chapters; for every index the chapter carries the matching
title of `T` and a body that is either parsed generated text or one of
the fixed sentinel strings; no slot is omitted. -/
theorem claim1_chapterCount (envS : Seq.Env) (envB : Batched.Env)
    (oS oB : OutlineData)
    (hS : Seq.outlineStep envS = .ok oS)
    (hB : Batched.outlineStep envB = .ok oB) :
    ∃ cS cB, Seq.generateMaterial envS = .ok cS ∧
      Batched.generateMaterial envB = .ok cB ∧
      cS.chapters.length = oS.chapterTitles.length ∧
      cB.chapters.length = oB.chapterTitles.length ∧
      (∀ k : Nat, (cS.chapters[k]?).map Seq.Chapter.title = oS.chapterTitles[k]?) ∧
      (∀ k : Nat, (cB.chapters[k]?).map Batched.Chapter.title = oB.chapterTitles[k]?) ∧
      (∀ c ∈ cS.chapters, Seq.BodyOk envS c) ∧
      (∀ c ∈ cB.chapters, Batched.BodyOk envB c) := by
  unfold Seq.generateMaterial Batched.generateMaterial
  rw [hS, hB]
  refine ⟨_, _, rfl, rfl,
    seqChapters_length envS oS.chapterTitles,
    batChapters_length envB oB.chapterTitles,
    fun k => seqChapters_title_getElem? envS oS.chapterTitles k,
    fun k => batChapters_title_getElem? envB oB.chapterTitles k,
    seqChapters_bodyOk envS oS.chapterTitles,
    batChapters_bodyOk envB oB.chapterTitles⟩

/-- Witness for C1 on a concrete all-success run over the two-chapter
outline `wOutlineC1`. -/
theorem claim1_chapterCount_witness :
    ∃ cS cB, Seq.generateMaterial wEnvC1S = .ok cS ∧
      Batched.generateMaterial wEnvC1B = .ok cB ∧
      cS.chapters.length = wOutlineC1.chapterTitles.length ∧
      cB.chapters.length = wOutlineC1.chapterTitles.length ∧
      (∀ k : Nat, (cS.chapters[k]?).map Seq.Chapter.title = wOutlineC1.chapterTitles[k]?) ∧
      (∀ k : Nat, (cB.chapters[k]?).map Batched.Chapter.title = wOutlineC1.chapterTitles[k]?) ∧
      (∀ c ∈ cS.chapters, Seq.BodyOk wEnvC1S c) ∧
      (∀ c ∈ cB.chapters, Batched.BodyOk wEnvC1B c) :=
  claim1_chapterCount wEnvC1S wEnvC1B wOutlineC1 wOutlineC1 (by decide) (by decide)

/-- C2: a run whose first `k` attempts fail with rate-limit errors and
whose attempt `k` succeeds (`k < retries`) returns the success, sleeps
exactly the waits `baseDelay * 2 ^ 0, ..., baseDelay * 2 ^ (k-1)` in that
order (total `baseDelay * (2^k - 1)`), and emits one progress message
before each wait. -/
theorem claim2_retryBackoff {α : Type} (operationName : String)
    (fn : Nat → Except JsError α) (retries baseDelay k : Nat) (a : α)
    (e : Nat → JsError)
    (hk : k < retries)
    (hfail : ∀ j, j < k → fn j = .error (e j) ∧ isRateLimit (e j) = true)
    (hok : fn k = .ok a) :
    (callWithRetry operationName fn retries baseDelay).outcome = .ok a ∧
    (callWithRetry operationName fn retries baseDelay).sleeps =
      (List.range k).map (fun j => baseDelay * 2 ^ j) ∧
    (callWithRetry operationName fn retries baseDelay).progress =
      (List.range k).map (fun j => retryProgressMsg operationName (baseDelay * 2 ^ j)) ∧
    (callWithRetry operationName fn retries baseDelay).sleeps.sum =
      baseDelay * (2 ^ k - 1) := by
  have hgo := callWithRetryGo_ok operationName fn baseDelay a e k retries 0 hk
    (by intro j hj; simpa using hfail j hj) (by simpa using hok)
  unfold callWithRetry
  rw [hgo]
  refine ⟨rfl, ?_, ?_, ?_⟩
  · rw [List.range_eq_range']
  · rw [List.range_eq_range']
  · rw [show (List.range' 0 k).map (fun m => baseDelay * 2 ^ m)
        = (List.range k).map (fun j => baseDelay * 2 ^ j) by rw [List.range_eq_range']]
    exact backoff_sum baseDelay k

/-- Witness for C2: two rate-limit failures then success, `retries = 3`,
`baseDelay = 4000`. -/
theorem claim2_retryBackoff_witness :
    (callWithRetry "Op"
        (fun j => if j < 2 then .error ⟨some 429, none, none⟩ else .ok 7) 3 4000).outcome
      = .ok 7 ∧
    (callWithRetry "Op"
        (fun j => if j < 2 then .error ⟨some 429, none, none⟩ else .ok 7) 3 4000).sleeps
      = (List.range 2).map (fun j => 4000 * 2 ^ j) ∧
    (callWithRetry "Op"
        (fun j => if j < 2 then .error ⟨some 429, none, none⟩ else .ok 7) 3 4000).progress
      = (List.range 2).map (fun j => retryProgressMsg "Op" (4000 * 2 ^ j)) ∧
    (callWithRetry "Op"
        (fun j => if j < 2 then .error ⟨some 429, none, none⟩ else .ok 7) 3 4000).sleeps.sum
      = 4000 * (2 ^ 2 - 1) :=
  claim2_retryBackoff "Op" _ 3 4000 2 7 (fun _ => ⟨some 429, none, none⟩)
    (by decide)
    (by intro j hj; exact ⟨by simp [hj], rfl⟩)
    rfl

/-- C3 counterexample: with the default `retries = 3` and an operation
failing with a rate-limit error on every attempt, `callWithRetry`
rethrows the original error of the last attempt; the terminal failure
message naming the operation is not raised.  (The `throw new Error(...)`
after the loop is dead code for `retries ≥ 1`, because the last iteration
rethrows inside the loop.) -/
theorem claim3_counterexample :
    (callWithRetry "Gerar Estrutura"
        (fun _ => (.error ⟨some 429, none, some "quota"⟩ : Except JsError GenResponse))
        3 4000).outcome
      = .err ⟨some 429, none, some "quota"⟩ ∧
    ¬ (callWithRetry "Gerar Estrutura"
        (fun _ => (.error ⟨some 429, none, some "quota"⟩ : Except JsError GenResponse))
        3 4000).outcome
      = .exhausted (retryExhaustedMsg "Gerar Estrutura") := by
  exact ⟨by decide, by decide⟩

/-- C3 amended: when the operation fails with rate-limit errors on all
`retries ≥ 1` attempts, the wrapper propagates the last attempt's
original error; the dedicated terminal failure naming the operation is
raised only in the degenerate `retries = 0` case, where the loop body
never runs. -/
theorem claim3_retryExhaustion {α : Type} (operationName : String)
    (fn : Nat → Except JsError α) (retries baseDelay : Nat) (e : Nat → JsError) :
    (0 < retries →
      (∀ j, j < retries → fn j = .error (e j) ∧ isRateLimit (e j) = true) →
      (callWithRetry operationName fn retries baseDelay).outcome
        = .err (e (retries - 1))) ∧
    (callWithRetry operationName fn 0 baseDelay).outcome
      = .exhausted (retryExhaustedMsg operationName) := by
  constructor
  · intro hr hfail
    unfold callWithRetry
    have hgo := callWithRetryGo_allFail operationName fn baseDelay e retries 0 hr
      (by intro j hj; simpa using hfail j hj)
    simpa using hgo
  · rfl

/-- Witness for the amended C3: all three attempts fail with a quota
error; the propagated failure is that error, and a zero-attempt call
raises the terminal message. -/
theorem claim3_retryExhaustion_witness :
    (callWithRetry "Gerar Estrutura"
        (fun _ => (.error ⟨some 429, none, some "quota"⟩ : Except JsError GenResponse))
        3 4000).outcome
      = .err ⟨some 429, none, some "quota"⟩ ∧
    (callWithRetry "Gerar Estrutura"
        (fun _ => (.error ⟨some 429, none, some "quota"⟩ : Except JsError GenResponse))
        0 4000).outcome
      = .exhausted (retryExhaustedMsg "Gerar Estrutura") :=
  ⟨(claim3_retryExhaustion "Gerar Estrutura"
      (fun _ => (.error ⟨some 429, none, some "quota"⟩ : Except JsError GenResponse))
      3 4000 (fun _ => ⟨some 429, none, some "quota"⟩)).1
      (by decide) (by intro j hj; exact ⟨rfl, by decide⟩),
   (claim3_retryExhaustion "Gerar Estrutura"
      (fun _ => (.error ⟨some 429, none, some "quota"⟩ : Except JsError GenResponse))
      3 4000 (fun _ => ⟨some 429, none, some "quota"⟩)).2⟩

/-- C4: an error not classified as rate-limit (status and code not 429
and message not matching the pattern) is propagated from the first
attempt, with no sleep, no progress message, and no further attempt. -/
theorem claim4_nonRateLimit {α : Type} (operationName : String)
    (fn : Nat → Except JsError α) (retries baseDelay : Nat) (e : JsError)
    (hr : 0 < retries) (h0 : fn 0 = .error e) (hnl : isRateLimit e = false) :
    callWithRetry operationName fn retries baseDelay = ⟨.err e, [], [], 1⟩ := by
  unfold callWithRetry
  match retries, hr with
  | r + 1, _ =>
    simp [callWithRetryGo, h0, hnl]

/-- Witness for C4: a 500-status error is propagated immediately. -/
theorem claim4_nonRateLimit_witness :
    callWithRetry "Texto Cap 1"
        (fun _ => (.error ⟨some 500, none, some "boom"⟩ : Except JsError GenResponse))
        3 4000
      = ⟨.err ⟨some 500, none, some "boom"⟩, [], [], 1⟩ :=
  claim4_nonRateLimit "Texto Cap 1" _ 3 4000 ⟨some 500, none, some "boom"⟩
    (by decide) rfl (by decide)

/-- C5: a chapter whose text call (after all retries) throws does not
abort the run: its slot still holds a chapter with the outline title and
the fixed non-empty placeholder body (in each variant its own
placeholder), and every other chapter slot is still produced. -/
theorem claim5_chapterIsolation (envS : Seq.Env) (envB : Batched.Env)
    (titles : List String) (i : Nat) (t : String)
    (ht : titles[i]? = some t)
    (hS : (Seq.textTrace envS i).outcome.throws)
    (hB : envB.textCall i = .thrown) :
    (Seq.generateChapters envS titles)[i]? = some ⟨t, Seq.errorBody, none⟩ ∧
    (Batched.generateChapters envB titles)[i]? = some ⟨t, Batched.errorBody⟩ ∧
    (Seq.generateChapters envS titles).length = titles.length ∧
    (Batched.generateChapters envB titles).length = titles.length ∧
    Seq.errorBody ≠ "" ∧ Batched.errorBody ≠ "" := by
  refine ⟨?_, ?_, seqChapters_length envS titles,
    batChapters_length envB titles, by decide, by decide⟩
  · rw [seqChapters_getElem?, ht]
    simp [Seq.genChapter_throws envS i t hS]
  · rw [batChapters_getElem?, ht]
    simp [Batched.genChapter_thrown envB i t hB]

/-- Witness for C5: the first chapter's text call fails in both variants
over the two-title list of `wOutlineC1`. -/
theorem claim5_chapterIsolation_witness :
    (Seq.generateChapters wEnvC5S wOutlineC1.chapterTitles)[0]?
      = some ⟨"Intro", Seq.errorBody, none⟩ ∧
    (Batched.generateChapters wEnvC5B wOutlineC1.chapterTitles)[0]?
      = some ⟨"Intro", Batched.errorBody⟩ ∧
    (Seq.generateChapters wEnvC5S wOutlineC1.chapterTitles).length
      = wOutlineC1.chapterTitles.length ∧
    (Batched.generateChapters wEnvC5B wOutlineC1.chapterTitles).length
      = wOutlineC1.chapterTitles.length ∧
    Seq.errorBody ≠ "" ∧ Batched.errorBody ≠ "" :=
  claim5_chapterIsolation wEnvC5S wEnvC5B wOutlineC1.chapterTitles 0 "Intro"
    (by decide) (by trivial) rfl

/-- C6: with batch size 3, assembled chapters appear exactly in
title-list order, and Promise.all places every batch result at its
original index whatever order the requests settle in (any permutation of
the indices), so the settle order never changes the assembly. -/
theorem claim6_batchOrder {α : Type} (env : Batched.Env) (titles : List String)
    (tasks : List α) (ord : List Nat)
    (hord : ord.Perm (List.range tasks.length)) :
    (Batched.generateChapters env titles).map Batched.Chapter.title = titles ∧
    settleAssemble tasks ord = tasks.map some :=
  ⟨batChapters_titles env titles, settleAssemble_perm tasks ord hord⟩

/-- Witness for C6: titles `[A, B, C, D]`, first batch `[A, B, C]`
settling in order C, A, B. -/
theorem claim6_batchOrder_witness :
    (Batched.generateChapters wEnvC6 ["A", "B", "C", "D"]).map Batched.Chapter.title
      = ["A", "B", "C", "D"] ∧
    settleAssemble (mapIdx (Batched.genChapter wEnvC6) 0 ["A", "B", "C"]) [2, 0, 1]
      = (mapIdx (Batched.genChapter wEnvC6) 0 ["A", "B", "C"]).map some :=
  claim6_batchOrder wEnvC6 ["A", "B", "C", "D"]
    (mapIdx (Batched.genChapter wEnvC6) 0 ["A", "B", "C"]) [2, 0, 1]
    (by decide)

/-- C7: in the sequential variant, when the text call succeeds and
parses, an image call that throws or returns no inline image part leaves
the chapter intact: generated text, no illustration, no failure. -/
theorem claim7_imageSwallowed (env : Seq.Env) (i : Nat) (t s c : String)
    (htext : (Seq.textTrace env i).outcome = .ok ⟨some s⟩)
    (hs : s ≠ "")
    (hparse : env.parseChapter s = .ok c)
    (himg : (Seq.imageTrace env i).outcome.throws ∨
      ∃ r, (Seq.imageTrace env i).outcome = .ok r ∧ extractImage r = none) :
    Seq.genChapter env i t = ⟨t, c, none⟩ := by
  rw [Seq.genChapter_ok env i t s c htext hs hparse,
    Seq.chapterImage_none env i himg]

/-- Witness for C7: a failing image call with a successful text call. -/
theorem claim7_imageSwallowed_witness :
    Seq.genChapter wEnvC7 0 "Intro" = ⟨"Intro", "corpo", none⟩ :=
  claim7_imageSwallowed wEnvC7 0 "Intro" "texto" "corpo"
    (by decide) (by decide) rfl (Or.inl (by trivial))

/-- C8 counterexample: `"#zzzzzz"` is an invalid hex string, yet
`hexToRgb` does not return the fallback: every channel is NaN, because
the fallback guard only checks for a falsy string or a missing leading
`#`, not for digit validity. -/
theorem claim8_counterexample :
    hexToRgb "#zzzzzz" = ⟨none, none, none⟩ ∧
    hexToRgb "#zzzzzz" ≠ ⟨some 30, some 41, some 59⟩ := by
  exact ⟨by decide, by decide⟩

/-- C8 amended: `"#1e293b"` parses to channels `(30, 41, 59)`, and a
missing (empty) hex or one not starting with `#` yields the fallback
`(30, 41, 59)`; strings that start with `#` are sliced positionally, so
malformed digits produce NaN channels instead of the fallback. -/
theorem claim8_hexToRgb :
    hexToRgb "#1e293b" = ⟨some 30, some 41, some 59⟩ ∧
    ∀ hex : String, hex = "" ∨ startsWithHash hex = false →
      hexToRgb hex = ⟨some 30, some 41, some 59⟩ := by
  refine ⟨by decide, ?_⟩
  intro hex h
  rcases h with h | h
  · subst h; decide
  · unfold hexToRgb
    rw [h]
    simp

/-- Witness for the amended C8: a hex value with no leading `#` falls
back to the default slate color. -/
theorem claim8_hexToRgb_witness :
    hexToRgb "1e293b" = ⟨some 30, some 41, some 59⟩ :=
  claim8_hexToRgb.2 "1e293b" (Or.inr (by decide))

/-- C9 counterexample: the title `Meu Livro` yields the file name
`meu_livro.pdf`; the space is replaced by an underscore (and the result
lowercased), not stripped as the claim states — stripping would give
`MeuLivro.pdf`. -/
theorem claim9_counterexample :
    pdfFileName "Meu Livro" = "meu_livro.pdf" ∧
    specFileName "Meu Livro" = "MeuLivro.pdf" ∧
    pdfFileName "Meu Livro" ≠ specFileName "Meu Livro" := by
  exact ⟨by decide, by decide, by decide⟩

/-- C9 amended: the file name is derived deterministically from the
title by replacing every non-alphanumeric character with an underscore
(length preserved, position by position) and lowercasing, then appending
`.pdf`. -/
theorem claim9_fileName (title : String) :
    ∃ stem : List Char,
      pdfFileName title = ⟨stem⟩ ++ ".pdf" ∧
      stem.length = title.toList.length ∧
      (∀ k : Nat, ∀ d : Char, title.toList[k]? = some d →
        isAsciiAlnum d = false → stem[k]? = some '_') ∧
      (∀ k : Nat, ∀ d : Char, title.toList[k]? = some d →
        isAsciiAlnum d = true → stem[k]? = some (Char.toLower d)) := by
  refine ⟨(title.toList.map replaceNonAlnum).map Char.toLower, rfl, by simp, ?_, ?_⟩
  · intro k d hk hd
    simp only [List.getElem?_map, hk]
    simp [replaceNonAlnum, hd]
  · intro k d hk hd
    simp only [List.getElem?_map, hk]
    simp [replaceNonAlnum, hd]

/-- Witness for the amended C9 at the title `Meu Livro`. -/
theorem claim9_fileName_witness :
    ∃ stem : List Char,
      pdfFileName "Meu Livro" = ⟨stem⟩ ++ ".pdf" ∧
      stem.length = "Meu Livro".toList.length ∧
      (∀ k : Nat, ∀ d : Char, "Meu Livro".toList[k]? = some d →
        isAsciiAlnum d = false → stem[k]? = some '_') ∧
      (∀ k : Nat, ∀ d : Char, "Meu Livro".toList[k]? = some d →
        isAsciiAlnum d = true → stem[k]? = some (Char.toLower d)) :=
  claim9_fileName "Meu Livro"

/-- C10: a chapter text call that succeeds but carries an empty or
absent text payload is not a failure: the body becomes the fixed string
`Conteúdo indisponível.` (sequential) or `Conteúdo não gerado.`
(batched), each distinct from that variant's error placeholder. -/
theorem claim10_emptyTextSentinel (envS : Seq.Env) (envB : Batched.Env)
    (i : Nat) (t : String)
    (hS : (Seq.textTrace envS i).outcome = .ok ⟨some ""⟩ ∨
      (Seq.textTrace envS i).outcome = .ok ⟨none⟩)
    (hB : envB.textCall i = .ok ⟨some ""⟩ ∨ envB.textCall i = .ok ⟨none⟩) :
    (Seq.genChapter envS i t).content = Seq.noContentBody ∧
    (Batched.genChapter envB i t).content = Batched.noContentBody ∧
    Seq.noContentBody ≠ Seq.errorBody ∧
    Batched.noContentBody ≠ Batched.errorBody :=
  ⟨seqGenChapter_noText envS i t hS, batGenChapter_noText envB i t hB,
    by decide, by decide⟩

/-- Witness for C10: an empty text payload in the sequential variant and
an absent one in the batched variant. -/
theorem claim10_emptyTextSentinel_witness :
    (Seq.genChapter wEnvC10S 0 "Intro").content = Seq.noContentBody ∧
    (Batched.genChapter wEnvC10B 0 "Intro").content = Batched.noContentBody ∧
    Seq.noContentBody ≠ Seq.errorBody ∧
    Batched.noContentBody ≠ Batched.errorBody :=
  claim10_emptyTextSentinel wEnvC10S wEnvC10B 0 "Intro"
    (Or.inl (by decide)) (Or.inr rfl)
